import Mathlib

/-!
Shallow embedding of `pyludus` (src/pyludus/process.py and src/pyludus/ludus.py)
and proofs about its specified properties.

Modelling conventions:
* A Python environment mapping (`dict` of string to string) is a function
  `String → Option String`; `dict.update` is right-biased overlay.
* `":".join(xs)` is `joinColon xs`.
* Machine-level spawn/wait/poll behaviour is modelled by an explicit
  `Popen` record: `exited` is the ground truth of whether the child has
  terminated, `exitCode` its code, `signaled`/`killed` record delivered
  termination signals.  File streams are byte lists (`List Nat`).
* Python exceptions become an explicit error type `PErr`; `osError` stands
  for a spawn failure raised by `subprocess.Popen` (not a `ProcessError`).
-/

/-- Python's `":".join(xs)`: elements of `xs` joined with a colon separator. -/
def joinColon : List String → String
  | [] => ""
  | [x] => x
  | x :: y :: t => x ++ ":" ++ joinColon (y :: t)

/-- An environment mapping, as in `os.environ` / the result of `create_env`. -/
def Env : Type := String → Option String

/-- The empty environment (`dict()`). -/
def emptyEnv : Env := fun _ => none

/-- `env[k] = v`: set one key of an environment. -/
def envSet (e : Env) (k : String) (v : String) : Env :=
  fun k2 => if k2 = k then some v else e k2

/-- `base.update(ov)`: overlay `ov` on `base`, keys of `ov` win. -/
def envOverlay (base ov : Env) : Env :=
  fun k => match ov k with
    | some v => some v
    | none => base k

/-- Error raised by `create_env`: the `env["PATH"]` lookup on a mapping
with no `PATH` entry (Python `KeyError`). -/
inductive EnvErr where
  | keyError
deriving DecidableEq, Repr

/-- `Process.create_env` (process.py lines 52-61), with the ambient
`os.environ` and `sys.path` passed explicitly.  Steps, in source order:
if `inherit_env`, copy `environ` and set
`env["PATH"] = ":".join((":".join(sys.path), env["PATH"]))`;
then `env.update(aux_env)` when given; then, when `aux_paths` is given,
`env["PATH"] = ":".join(chain(aux_paths, [env["PATH"]]))`.
A `PATH` lookup on an environment without the key raises `KeyError`. -/
def create_env (inherit_env : Bool) (aux_env : Option Env)
    (aux_paths : Option (List String)) (environ : Env) (sysPath : List String) :
    Except EnvErr Env :=
  let step1 : Except EnvErr Env :=
    if inherit_env then
      match environ "PATH" with
      | none => .error .keyError
      | some p => .ok (envSet environ "PATH" (joinColon sysPath ++ ":" ++ p))
    else .ok emptyEnv
  match step1 with
  | .error e => .error e
  | .ok env1 =>
    let env2 := match aux_env with
      | none => env1
      | some ae => envOverlay env1 ae
    match aux_paths with
    | none => .ok env2
    | some ps =>
      match env2 "PATH" with
      | none => .error .keyError
      | some p => .ok (envSet env2 "PATH" (joinColon (ps ++ [p])))

/-- The `PATH` entry of a `create_env` result (`none` when it raised). -/
def getPATH (r : Except EnvErr Env) : Option String :=
  match r with
  | .error _ => none
  | .ok e => e "PATH"

/-- Lookup of an arbitrary key in a `create_env` result. -/
def getKey (k : String) (r : Except EnvErr Env) : Option String :=
  match r with
  | .error _ => none
  | .ok e => e k

/-- A concrete parent environment whose `PATH` is `/usr/bin`. -/
def envUsr : Env := fun k => if k = "PATH" then some "/usr/bin" else none

/-- A concrete caller-supplied `aux_env` that sets `PATH` to `/custom`. -/
def envCustom : Env := fun k => if k = "PATH" then some "/custom" else none

/-- One iteration body of the bounded branch of `NonBlockingReadingIO.read`
(process.py lines 31-34), iterated under explicit fuel.  The poll reports
ready exactly while bytes remain in `stream`; each ready iteration performs
`os.read(fd, min(buffer_size, n))`, decrements `n` by the bytes obtained and
appends them to the accumulator.  The loop exits only on a not-ready poll.
`none` means the fuel ran out, i.e. the loop had not terminated after that
many iterations; `some (acc, rest)` is the returned bytes and the bytes
left unread in the stream. -/
def nbReadAux (bufferSize : Nat) :
    Nat → List Nat → Nat → List Nat → Option (List Nat × List Nat)
  | 0, _, _, _ => none
  | fuel + 1, stream, n, acc =>
    if stream.isEmpty then some (acc, stream)
    else
      let k := min bufferSize n
      let r := stream.take k
      nbReadAux bufferSize fuel (stream.drop k) (n - r.length) (acc ++ r)

/-- The unbounded branch of `NonBlockingReadingIO.read` (process.py lines
28-29): while the poll reports ready, read `buffer_size` bytes and append. -/
def nbReadAllAux (bufferSize : Nat) :
    Nat → List Nat → List Nat → Option (List Nat × List Nat)
  | 0, _, _ => none
  | fuel + 1, stream, acc =>
    if stream.isEmpty then some (acc, stream)
    else nbReadAllAux bufferSize fuel (stream.drop bufferSize)
      (acc ++ stream.take bufferSize)

/-- `NonBlockingReadingIO.read` (process.py lines 25-35): dispatch on
whether a byte bound `n` was given. -/
def nbRead (bufferSize fuel : Nat) (stream : List Nat) (n : Option Nat) :
    Option (List Nat × List Nat) :=
  match n with
  | none => nbReadAllAux bufferSize fuel stream []
  | some k => nbReadAux bufferSize fuel stream k []

/-- The errors a `Process` operation can raise.  The first three are the
`ProcessError` raise sites of process.py (lines 65, 93, 102); `osError`
models an exception raised by `subprocess.Popen` itself when the spawn
fails, which is not a `ProcessError`. -/
inductive PErr where
  | alreadyStarted
  | notStarted
  | notRunning
  | osError
deriving DecidableEq, Repr

/-- Whether an error is a `ProcessError` (caught by `except ProcessError`). -/
def isProcessError : PErr → Bool
  | .alreadyStarted => true
  | .notStarted => true
  | .notRunning => true
  | .osError => false

/-- The child-process handle returned by `subprocess.Popen`.  `exited` is
the ground truth of whether the child has terminated and `exitCode` its
code then; `signaled`/`killed` record a delivered `terminate()`/`kill()`
signal; `stdoutBuf`/`stderrBuf` are the bytes currently readable from the
child's stdout/stderr pipes.  `returncode` is `exitCode` once the exit has
been observed (`poll`/`wait`), `None` before. -/
structure Popen where
  exitCode : Int
  exited : Bool := false
  signaled : Bool := false
  killed : Bool := false
  stdoutBuf : List Nat := []
  stderrBuf : List Nat := []
deriving DecidableEq, Repr

/-- The Python-visible `Popen.returncode` attribute of a handle. -/
def popenReturncode (h : Popen) : Option Int :=
  if h.exited then some h.exitCode else none

/-- The mutable state of a `Process` object: its `_process` field, `None`
until a successful `open()` (the `_stderr` reader exists exactly when
`_process` does, and its stream is `stderrBuf`). -/
structure ProcState where
  proc : Option Popen
deriving DecidableEq, Repr

/-- Result of one `Process` operation: the returned value or raised error,
and the state of the object afterwards. -/
structure OpRes (α : Type) where
  result : Except PErr α
  state : ProcState
deriving Repr

/-- `Process.open` (process.py lines 63-75): raise `ProcessError` if
`_process` is already set; otherwise evaluate `subprocess.Popen(...)` —
modelled by the oracle `spawnResult`, `none` meaning the spawn raised — and
only on success assign `_process` (a raise leaves `_process` unset). -/
def openP (spawnResult : Option Popen) (s : ProcState) : OpRes Unit :=
  match s.proc with
  | some _ => ⟨.error .alreadyStarted, s⟩
  | none =>
    match spawnResult with
    | none => ⟨.error .osError, s⟩
    | some h => ⟨.ok (), ⟨some h⟩⟩

/-- `Process.is_run` (process.py line 88): whether `_process` is set. -/
def is_runP (s : ProcState) : Bool := s.proc.isSome

/-- `Process.is_alive` (process.py lines 96-98): `check_run`, then
`poll() is None`, i.e. the child has not terminated. -/
def is_aliveP (s : ProcState) : OpRes Bool :=
  match s.proc with
  | none => ⟨.error .notStarted, s⟩
  | some h => ⟨.ok (!h.exited), s⟩

/-- `Process.wait` (process.py lines 105-108): `check_run`, then block in
`Popen.wait` until the child exits (the `timeout` argument is `None` at
every call site modelled here, so the wait always reaches the exit), then
return `returncode`. -/
def waitP (s : ProcState) : OpRes Int :=
  match s.proc with
  | none => ⟨.error .notStarted, s⟩
  | some h => ⟨.ok h.exitCode, ⟨some { h with exited := true }⟩⟩

/-- `Process.close` (process.py lines 110-115): `check_alive` (raising
`notStarted` before `open()` and `notRunning` once the child has exited),
then deliver `kill()` or `terminate()` without waiting for the exit. -/
def closeP (kill : Bool) (s : ProcState) : OpRes Unit :=
  match s.proc with
  | none => ⟨.error .notStarted, s⟩
  | some h =>
    if h.exited then ⟨.error .notRunning, s⟩
    else if kill then ⟨.ok (), ⟨some { h with killed := true }⟩⟩
    else ⟨.ok (), ⟨some { h with signaled := true }⟩⟩

/-- `Process.write` (process.py lines 117-121): `check_alive`, then write
`data` to the child's stdin, flush, and return the byte count.  The bytes
handed to the child are not further modelled. -/
def writeP (data : List Nat) (s : ProcState) : OpRes Nat :=
  match s.proc with
  | none => ⟨.error .notStarted, s⟩
  | some h =>
    if h.exited then ⟨.error .notRunning, s⟩
    else ⟨.ok data.length, s⟩

/-- `Process.read` (process.py lines 123-125): `check_run`, then a plain
(possibly blocking) `stdout.read(n)`: all buffered bytes when `n` is
`None`, else up to `n` bytes. -/
def readP (n : Option Nat) (s : ProcState) : OpRes (List Nat) :=
  match s.proc with
  | none => ⟨.error .notStarted, s⟩
  | some h =>
    match n with
    | none => ⟨.ok h.stdoutBuf, ⟨some { h with stdoutBuf := [] }⟩⟩
    | some k =>
      ⟨.ok (h.stdoutBuf.take k), ⟨some { h with stdoutBuf := h.stdoutBuf.drop k }⟩⟩

/-- `Process.read_error` (process.py lines 127-129): `check_run`, then
`self._stderr.read(n)` through the non-blocking reader (buffer size 512,
the default used at the `open()` construction site).  An inner `none`
reports that the reader's loop did not terminate within `fuel` steps. -/
def read_errorP (fuel : Nat) (n : Option Nat) (s : ProcState) :
    OpRes (Option (List Nat)) :=
  match s.proc with
  | none => ⟨.error .notStarted, s⟩
  | some h =>
    match nbRead 512 fuel h.stderrBuf n with
    | none => ⟨.ok none, s⟩
    | some (acc, rest) => ⟨.ok (some acc), ⟨some { h with stderrBuf := rest }⟩⟩

/-- One line taken from the front of a byte stream (up to and including a
newline byte 10), as `stdout.readline` consumes it. -/
def takeLine : List Nat → List Nat
  | [] => []
  | b :: t => if b = 10 then [10] else b :: takeLine t

/-- `Process.readline` (process.py lines 131-133): `check_run`, then
`stdout.readline(limit)`: one line, truncated to `limit` bytes if given. -/
def readlineP (limit : Option Nat) (s : ProcState) : OpRes (List Nat) :=
  match s.proc with
  | none => ⟨.error .notStarted, s⟩
  | some h =>
    let line := match limit with
      | none => takeLine h.stdoutBuf
      | some l => (takeLine h.stdoutBuf).take l
    ⟨.ok line, ⟨some { h with stdoutBuf := h.stdoutBuf.drop line.length }⟩⟩

/-- `Process.run_sync` (process.py lines 77-82): `open()` (errors
propagate), then `wait()` inside `try`, returning its code; an
`except ProcessError` clause instead returns `self._process.returncode`,
the best-known exit code. -/
def run_syncP (spawnResult : Option Popen) (s : ProcState) :
    OpRes (Option Int) :=
  let o := openP spawnResult s
  match o.result with
  | .error e => ⟨.error e, o.state⟩
  | .ok _ =>
    let w := waitP o.state
    match w.result with
    | .ok c => ⟨.ok (some c), w.state⟩
    | .error e =>
      if isProcessError e then
        ⟨.ok (match w.state.proc with
              | some h => popenReturncode h
              | none => none), w.state⟩
      else ⟨.error e, w.state⟩

/-- `Process.__exit__` (process.py lines 144-151): return immediately when
the child is no longer alive; otherwise attempt a graceful `close()`, and
log — never re-raise — a `ProcessError` raised by it.  (`__enter__` is
`open()`; the context body runs with `_process` set.) -/
def exitCM (s : ProcState) : OpRes Unit :=
  match is_aliveP s with
  | ⟨.error e, s1⟩ => ⟨.error e, s1⟩
  | ⟨.ok false, s1⟩ => ⟨.ok (), s1⟩
  | ⟨.ok true, s1⟩ =>
    match closeP false s1 with
    | ⟨.ok _, s2⟩ => ⟨.ok (), s2⟩
    | ⟨.error e, s2⟩ =>
      if isProcessError e then ⟨.ok (), s2⟩ else ⟨.error e, s2⟩

/-- A Python value passed as a keyword option to `Ludus.create_process`,
tagged by the kind the `form_kwargs` dispatch distinguishes (`None`, bool,
string — tested before the sequence case —, sequence, or any other scalar
carried together with its `str()` rendering). -/
inductive PyValue where
  | none
  | bool (b : Bool)
  | str (s : String)
  | seq (vs : List PyValue)
  | scalar (rendering : String)

mutual

/-- `form_kwargs` (ludus.py lines 40-51): translate one option into
argument-vector entries by value kind. -/
def form_kwargs (key : String) : PyValue → List String
  | .none => []
  | .bool b => if b then ["--" ++ key] else []
  | .str s => ["--" ++ key, s]
  | .seq vs => formKwargsSeq key vs
  | .scalar r => ["--" ++ key, r]

/-- `list(chain(*(form_kwargs(key, v) for v in value)))` of ludus.py line
50: the concatenated translations of a sequence's elements, in order. -/
def formKwargsSeq (key : String) : List PyValue → List String
  | [] => []
  | v :: vs => form_kwargs key v ++ formKwargsSeq key vs

end

/-- `key.replace("_", "-")` applied to option names (ludus.py line 53):
every underscore character becomes a hyphen. -/
def hyphenate (k : String) : String :=
  String.mk (k.data.map (fun c => if c = '_' then '-' else c))

/-- The argument vector of the `Process` built by `Ludus.create_process`
(ludus.py lines 53-56): the command, the positional arguments, then the
translated keyword options in order. -/
def create_process_args (command : String) (args : List String)
    (kwargs : List (String × PyValue)) : List String :=
  [command] ++ args ++
    (kwargs.map (fun kv => form_kwargs (hyphenate kv.1) kv.2)).flatten

theorem joinColon_append (xs ys : List String) (hx : xs ≠ []) (hy : ys ≠ []) :
    joinColon (xs ++ ys) = joinColon xs ++ ":" ++ joinColon ys := by
  induction xs with
  | nil => exact absurd rfl hx
  | cons x t ih =>
    cases t with
    | nil =>
      cases ys with
      | nil => exact absurd rfl hy
      | cons y u => simp [joinColon]
    | cons x2 t2 =>
      have h2 : (x2 :: t2 : List String) ≠ [] := by simp
      calc joinColon ((x :: x2 :: t2) ++ ys)
          = x ++ ":" ++ joinColon ((x2 :: t2) ++ ys) := rfl
        _ = x ++ ":" ++ (joinColon (x2 :: t2) ++ ":" ++ joinColon ys) := by
              rw [ih h2]
        _ = joinColon (x :: x2 :: t2) ++ ":" ++ joinColon ys := by
              simp [joinColon, String.append_assoc]

/-- Claim C1, counterexample: with `inherit_env = true`, extra search path
`/x` and inherited `PATH = /usr/bin`, but an interpreter module path
`/sp`, `create_env` produces `PATH = /x:/sp:/usr/bin` — the `sys.path`
entries are inserted between the extra paths and the inherited `PATH`, so
the result is not `/x:/usr/bin` as the claim requires. -/
theorem c1_env_path_cex :
    getPATH (create_env true none (some ["/x"]) envUsr ["/sp"]) =
      some "/x:/sp:/usr/bin" ∧
    ("/x:/sp:/usr/bin" : String) ≠ joinColon (["/x"] ++ ["/usr/bin"]) := by
  refine ⟨rfl, by decide⟩

/-- Claim C1, amended: with `inherit_env = true`, non-empty extra search
paths and no `PATH` key in `aux_env`, the resulting `PATH` is the extra
search paths in their given order, followed by the interpreter's `sys.path`
entries, followed by the originally inherited `PATH`, colon-joined. -/
theorem c1_env_path_amended (environ : Env) (sysPath ps : List String)
    (aux_env : Option Env) (p0 : String)
    (hP : environ "PATH" = some p0)
    (hA : aux_env = none ∨ ∃ ae, aux_env = some ae ∧ ae "PATH" = none)
    (hps : ps ≠ []) (hsp : sysPath ≠ []) :
    getPATH (create_env true aux_env (some ps) environ sysPath) =
      some (joinColon (ps ++ sysPath ++ [p0])) := by
  have hP1 : joinColon (ps ++ [joinColon sysPath ++ ":" ++ p0]) =
      joinColon (ps ++ sysPath ++ [p0]) := by
    rw [joinColon_append ps [joinColon sysPath ++ ":" ++ p0] hps (by simp),
        List.append_assoc,
        joinColon_append ps (sysPath ++ [p0]) hps (by simp),
        joinColon_append sysPath [p0] hsp (by simp)]
    simp [joinColon]
  rcases hA with rfl | ⟨ae, rfl, hae⟩
  · simp [create_env, getPATH, hP, envSet, hP1]
  · simp [create_env, getPATH, hP, envSet, envOverlay, hae, hP1]

/-- Claim C1, witness for the amended theorem at a concrete input. -/
theorem c1_env_path_amended_w :
    getPATH (create_env true none (some ["/x", "/y"]) envUsr ["/sp"]) =
      some (joinColon (["/x", "/y"] ++ ["/sp"] ++ ["/usr/bin"])) :=
  c1_env_path_amended envUsr ["/sp"] ["/x", "/y"] none "/usr/bin" rfl
    (Or.inl rfl) (by simp) (by simp)

/-- Claim C4, counterexample: with `aux_env = {PATH: /custom}` and
`aux_paths = [/x]`, `create_env` yields `PATH = /x:/custom`: the overlay
is applied before the search-path prepend, so a caller-supplied `PATH`
does not win over the prepend step as the claim requires (`/custom`). -/
theorem c4_overlay_order_cex :
    getPATH (create_env true (some envCustom) (some ["/x"]) envUsr []) =
      some "/x:/custom" ∧
    (some "/x:/custom" : Option String) ≠ some "/custom" := by
  refine ⟨rfl, by decide⟩

/-- Claim C4, amended: `create_env` applies the `aux_env` overlay first
and prepends the extra search paths afterwards: when `aux_env` carries a
`PATH` of its own, the final `PATH` is the extra paths followed by the
`aux_env`-supplied `PATH` (which replaced the inherited one), and every
non-`PATH` key of `aux_env` still wins in the result. -/
theorem c4_overlay_before_prepend (environ : Env) (sysPath ps : List String)
    (ae : Env) (p0 q : String)
    (hP : environ "PATH" = some p0) (hq : ae "PATH" = some q) :
    getPATH (create_env true (some ae) (some ps) environ sysPath) =
      some (joinColon (ps ++ [q])) ∧
    ∀ k v, k ≠ "PATH" → ae k = some v →
      getKey k (create_env true (some ae) (some ps) environ sysPath) = some v := by
  constructor
  · simp [create_env, getPATH, hP, envSet, envOverlay, hq]
  · intro k v hk hv
    simp [create_env, getKey, hP, envSet, envOverlay, hq, hv, hk]

/-- Claim C4, witness for the amended theorem at a concrete input. -/
theorem c4_overlay_before_prepend_w :
    getPATH (create_env true (some envCustom) (some ["/x"]) envUsr []) =
      some (joinColon (["/x"] ++ ["/custom"])) :=
  (c4_overlay_before_prepend envUsr [] ["/x"] envCustom "/usr/bin" "/custom"
    rfl rfl).1

/-- Claim C9: with `inherit_env = false`, a given `aux_paths`, and an
`aux_env` that is absent or lacks a `PATH` key, `create_env` raises the
`KeyError` of the `env["PATH"]` lookup instead of returning a mapping. -/
theorem c9_no_inherit_keyerror (aux_env : Option Env) (ps : List String)
    (environ : Env) (sysPath : List String)
    (hA : aux_env = none ∨ ∃ ae, aux_env = some ae ∧ ae "PATH" = none) :
    create_env false aux_env (some ps) environ sysPath = .error .keyError := by
  rcases hA with rfl | ⟨ae, rfl, hae⟩
  · simp [create_env, emptyEnv]
  · simp [create_env, emptyEnv, envOverlay, hae]

/-- Claim C9, witness at a concrete input. -/
theorem c9_no_inherit_keyerror_w :
    create_env false none (some ["/x"]) envUsr [] = .error .keyError :=
  c9_no_inherit_keyerror none ["/x"] envUsr [] (Or.inl rfl)

/-- Claim C2, counterexample: a first `open()` whose spawn raises leaves
`_process` unset, so a second `open()` with a succeeding spawn returns
normally instead of raising `AlreadyStartedError`. -/
theorem c2_open_retry_cex :
    (openP none ⟨none⟩).result = .error .osError ∧
    (openP (some { exitCode := 0 }) (openP none ⟨none⟩).state).result =
      .ok () ∧
    (openP (some { exitCode := 0 }) (openP none ⟨none⟩).state).result ≠
      .error .alreadyStarted := by
  refine ⟨rfl, rfl, by simp [openP]⟩

/-- Claim C2, amended: a second `open()` raises `AlreadyStartedError`
exactly when the first call's spawn succeeded; when the first spawn raises,
`_process` stays unset, the state is unchanged, and a later `open()` may
spawn normally. -/
theorem c2_open_single_shot (s : ProcState) (hp : Popen)
    (h0 : s.proc = none) :
    ((openP (some hp) s).result = .ok () ∧
      ∀ sr2, (openP sr2 (openP (some hp) s).state).result =
        .error .alreadyStarted) ∧
    ((openP none s).result = .error .osError ∧ (openP none s).state = s) := by
  rcases s with ⟨p⟩
  cases p with
  | some hq => exact absurd h0 (by simp)
  | none => exact ⟨⟨rfl, fun sr2 => rfl⟩, rfl, rfl⟩

/-- Claim C2, witness for the amended theorem at a concrete input. -/
theorem c2_open_single_shot_w :
    (openP (some ({ exitCode := 0 } : Popen)) ⟨none⟩).result = .ok () ∧
    (openP none (⟨none⟩ : ProcState)).result = .error .osError :=
  ⟨(c2_open_single_shot ⟨none⟩ { exitCode := 0 } rfl).1.1,
   (c2_open_single_shot ⟨none⟩ { exitCode := 0 } rfl).2.1⟩

theorem nbReadAux_zero_stuck (bs : Nat) (stream : List Nat)
    (h : stream.isEmpty = false) :
    ∀ fuel acc, nbReadAux bs fuel stream 0 acc = none := by
  intro fuel
  induction fuel with
  | zero => intro acc; rfl
  | succ f ih =>
    intro acc
    simp only [nbReadAux, h, Bool.false_eq_true, if_false, Nat.min_zero,
      List.take_zero, List.drop_zero, List.length_nil, Nat.sub_zero,
      List.append_nil]
    exact ih acc

/-- Claim C3: `NonBlockingReadingIO.read` with `maxBytes = 4` on a stream
of 10 continuously available bytes never terminates — the loop condition
rechecks only the poll, so once the 4 requested bytes are consumed each
iteration reads `min(buffer_size, 0) = 0` bytes and spins while the poll
stays ready; no amount of fuel makes the call return. -/
theorem c3_bounded_read_diverges :
    ∀ fuel, nbRead 512 fuel [1, 2, 3, 4, 5, 6, 7, 8, 9, 10] (some 4) =
      none := by
  intro fuel
  cases fuel with
  | zero => rfl
  | succ f =>
    have h1 : nbRead 512 (f + 1) [1, 2, 3, 4, 5, 6, 7, 8, 9, 10] (some 4) =
        nbReadAux 512 f [5, 6, 7, 8, 9, 10] 0 [1, 2, 3, 4] := rfl
    rw [h1]
    exact nbReadAux_zero_stuck 512 [5, 6, 7, 8, 9, 10] rfl f [1, 2, 3, 4]

/-- Claim C5: `run_sync` after a successful `open()` is the composition
`open()` then `wait()`: it returns `wait`'s exit code wrapped as the
synchronous result and leaves the state `wait` left; no `ProcessError`
reaches the caller (a `ProcessError` from `wait` would be downgraded to
`Popen.returncode`, the best-known exit code, by the `except` clause). -/
theorem c5_run_sync (sr : Option Popen) (s : ProcState)
    (h : (openP sr s).result = .ok ()) :
    (∃ c, (waitP (openP sr s).state).result = .ok c ∧
      (run_syncP sr s).result = .ok (some c) ∧
      (run_syncP sr s).state = (waitP (openP sr s).state).state) ∧
    ∀ e, (run_syncP sr s).result ≠ .error e := by
  rcases s with ⟨p⟩
  cases p with
  | some hq => simp [openP] at h
  | none =>
    cases sr with
    | none => simp [openP] at h
    | some hp =>
      exact ⟨⟨hp.exitCode, rfl, rfl, rfl⟩, fun e => by simp [run_syncP, openP, waitP]⟩

/-- Claim C5, witness at a concrete input. -/
theorem c5_run_sync_w :
    (run_syncP (some ({ exitCode := 2 } : Popen)) ⟨none⟩).result ≠
      .error .notStarted ∧
    (run_syncP (some ({ exitCode := 2 } : Popen)) ⟨none⟩).result =
      .ok (some 2) :=
  ⟨(c5_run_sync (some { exitCode := 2 }) ⟨none⟩ rfl).2 .notStarted, rfl⟩

/-- Claim C6: every read/write/liveness operation in the wrong lifecycle
state raises the corresponding named error: `wait`, `is_alive`, `read`,
`read_error`, `readline` and `write` on an unstarted `Process` all raise
the not-started `ProcessError`, and `write` or `close` after the child
has exited raise the not-running `ProcessError`. -/
theorem c6_wrong_state_errors (hp : Popen) (he : hp.exited = true) :
    (waitP ⟨none⟩).result = .error .notStarted ∧
    (is_aliveP ⟨none⟩).result = .error .notStarted ∧
    (∀ n, (readP n ⟨none⟩).result = .error .notStarted) ∧
    (∀ fuel n, (read_errorP fuel n ⟨none⟩).result = .error .notStarted) ∧
    (∀ l, (readlineP l ⟨none⟩).result = .error .notStarted) ∧
    (∀ d, (writeP d ⟨none⟩).result = .error .notStarted) ∧
    (∀ d, (writeP d ⟨some hp⟩).result = .error .notRunning) ∧
    (∀ k, (closeP k ⟨some hp⟩).result = .error .notRunning) := by
  refine ⟨rfl, rfl, fun n => rfl, fun fuel n => rfl, fun l => rfl,
    fun d => rfl, fun d => ?_, fun k => ?_⟩
  · simp [writeP, he]
  · simp [closeP, he]

/-- Claim C6, witness at concrete states. -/
theorem c6_wrong_state_errors_w :
    (waitP ⟨none⟩).result = .error .notStarted ∧
    (closeP false ⟨some { exitCode := 0, exited := true }⟩).result =
      .error .notRunning := by
  have h := c6_wrong_state_errors { exitCode := 0, exited := true } rfl
  exact ⟨h.1, h.2.2.2.2.2.2.2 false⟩

/-- Claim C7: `wait()` is idempotent once the child has exited: it returns
the cached exit code, leaves the state unchanged (still terminated), and a
second consecutive `wait()` returns the identical code again. -/
theorem c7_wait_idempotent (hp : Popen) (h2 : hp.exited = true) :
    (waitP ⟨some hp⟩).result = .ok hp.exitCode ∧
    (waitP ⟨some hp⟩).state = ⟨some hp⟩ ∧
    (waitP (waitP ⟨some hp⟩).state).result = .ok hp.exitCode ∧
    (waitP (waitP ⟨some hp⟩).state).state = ⟨some hp⟩ := by
  have hstate : ({ hp with exited := true } : Popen) = hp := by
    obtain ⟨e, ex, sg, kl, so, se⟩ := hp
    simp_all
  simp [waitP, hstate]

/-- Claim C7, witness at a concrete terminated process. -/
theorem c7_wait_idempotent_w :
    (waitP ⟨some { exitCode := 3, exited := true }⟩).result = .ok 3 ∧
    (waitP ⟨some { exitCode := 3, exited := true }⟩).state =
      ⟨some { exitCode := 3, exited := true }⟩ :=
  ⟨(c7_wait_idempotent { exitCode := 3, exited := true } rfl).1,
   (c7_wait_idempotent { exitCode := 3, exited := true } rfl).2.1⟩

/-- Claim C8: on every exit of the scoped-use block (the context manager's
`__exit__`), provided the block was entered (`_process` set), the teardown
never raises: when the child has already exited nothing is done, and when
it is still alive a graceful `close()` is attempted (the termination signal
is delivered) with any `ProcessError` from it suppressed. -/
theorem c8_exit_guard (hp : Popen) :
    (exitCM ⟨some hp⟩).result = .ok () ∧
    (hp.exited = true → (exitCM ⟨some hp⟩).state = ⟨some hp⟩) ∧
    (hp.exited = false →
      (exitCM ⟨some hp⟩).state = ⟨some { hp with signaled := true }⟩) := by
  cases he : hp.exited with
  | true => simp [exitCM, is_aliveP, closeP, he]
  | false => simp [exitCM, is_aliveP, closeP, he]

/-- Claim C8, witness: a live child gets the graceful signal and `__exit__`
returns normally. -/
theorem c8_exit_guard_w :
    (exitCM ⟨some ({ exitCode := 0 } : Popen)⟩).result = .ok () ∧
    (exitCM ⟨some ({ exitCode := 0 } : Popen)⟩).state =
      ⟨some { exitCode := 0, signaled := true }⟩ :=
  ⟨(c8_exit_guard { exitCode := 0 }).1,
   (c8_exit_guard { exitCode := 0 }).2.2 rfl⟩

theorem formKwargsSeq_eq_flatten (k : String) (vs : List PyValue) :
    formKwargsSeq k vs = (vs.map (form_kwargs k)).flatten := by
  induction vs with
  | nil => rfl
  | cons v t ih => simp [formKwargsSeq, ih]

/-- Claim C10: `Ludus.create_process` translates each keyword option by
value kind — `None` and `False` contribute nothing, `True` contributes
`--key`, a string contributes `--key value`, a sequence contributes the
concatenated translations of its elements in order, any other scalar
contributes `--key str(value)` — with underscores of the key turned into
hyphens, and the final argument vector is the command, the positional
arguments, then these option entries. -/
theorem c10_create_process_args :
    (∀ k, form_kwargs k .none = []) ∧
    (∀ k, form_kwargs k (.bool false) = []) ∧
    (∀ k, form_kwargs k (.bool true) = ["--" ++ k]) ∧
    (∀ k s, form_kwargs k (.str s) = ["--" ++ k, s]) ∧
    (∀ k vs, form_kwargs k (.seq vs) = (vs.map (form_kwargs k)).flatten) ∧
    (∀ k r, form_kwargs k (.scalar r) = ["--" ++ k, r]) ∧
    (∀ c as ks, create_process_args c as ks =
      [c] ++ as ++
        (ks.map (fun kv => form_kwargs (hyphenate kv.1) kv.2)).flatten) ∧
    hyphenate "instances_dir" = "instances-dir" ∧
    form_kwargs "a-b" (.seq [.str "x", .seq [.bool true, .none], .scalar "3"]) =
      ["--a-b", "x", "--a-b", "--a-b", "3"] := by
  refine ⟨fun k => rfl, fun k => rfl, fun k => rfl, fun k s => rfl,
    fun k vs => ?_, fun k r => rfl, fun c as ks => rfl, by decide, ?_⟩
  · simp only [form_kwargs]
    exact formKwargsSeq_eq_flatten k vs
  · simp [form_kwargs, formKwargsSeq]
